import Mathlib

/-!
Verification development for the revenium-middleware-runway-go repository:
a shallow embedding, in Lean 4, of the middleware's metering-payload
construction, task-completion polling loop, metering delivery retry loop,
video-generation orchestration, and global initialization, together with
theorems settling the specification claims about them.

Modelling conventions:
* Go `time.Duration` values are natural numbers of nanoseconds; backoff
  values in the metering retry loop are in milliseconds (matching the
  literals in the source).  All durations in scope are nonnegative.
* Go `map[string]interface{}` values that the code only stores and merges
  are modelled by the inductive `MVal`; maps that the code iterates over
  are association lists (`GoMap`), and the payload map under construction
  is a lookup function (`Payload`), matching Go map read/write semantics.
* `float64` numbers appearing in payloads are modelled by `ℚ`; every
  float operation performed by the code on them (the literal `5.0`,
  `float64(n)` for small ints, copying) is exact at this scale, so no
  rounding behaviour is lost.
* `interval = time.Duration(float64(interval) * 1.5)` is modelled as
  `3 * interval / 2` (floor): for every interval magnitude reachable from
  the shipped configurations (well below 2^52 ns) the float computation
  is exact up to the final truncation, which the floor reproduces.
-/

namespace Runway

/-- Go task statuses are string constants (`type TaskStatus string`). -/

abbrev TaskStatus := String

def TaskStatusPending : TaskStatus := "PENDING"

def TaskStatusRunning : TaskStatus := "RUNNING"

def TaskStatusSucceeded : TaskStatus := "SUCCEEDED"

def TaskStatusFailed : TaskStatus := "FAILED"

def TaskStatusCanceled : TaskStatus := "CANCELED"

/-- Values stored in `map[string]interface{}` payloads.  `time t` stands for
an RFC3339-formatted rendering of the instant `t` (nanoseconds since epoch);
`strMap` models the `map[string]interface{}` subscriber block, whose contents
the middleware never inspects. -/

inductive MVal where
  | str (s : String)
  | int (n : Int)
  | float (q : ℚ)
  | bool (b : Bool)
  | strList (l : List String)
  | time (t : Int)
  | strMap (l : List (String × String))
deriving DecidableEq

/-- A Go map the code iterates over, as an association list (unique keys). -/

abbrev GoMap := List (String × MVal)

/-- Keyed lookup in a `GoMap`, i.e. `m[k]`. -/

def lookupGo : GoMap → String → Option MVal
  | [], _ => none
  | (k', v) :: rest, k => if k' = k then some v else lookupGo rest k

/-- The payload map under construction, as its lookup function. -/

def Payload := String → Option MVal

/-- The empty Go map. -/

def emptyP : Payload := fun _ => none

/-- `payload[k] = v` (Go map write: overwrites any existing entry). -/

def setP (p : Payload) (k : String) (v : MVal) : Payload :=
  fun k' => if k' = k then some v else p k'

/-- `payload[k]` (Go map read). -/

def getP (p : Payload) (k : String) : Option MVal := p k

/-- `if _, exists := payload[k]; !exists { payload[k] = v }` folded over a
Go map, exactly as in the two merge loops of `buildMeteringPayload`. -/

def mergeIfAbsent : Payload → GoMap → Payload
  | p, [] => p
  | p, (k, v) :: rest =>
      mergeIfAbsent (if (getP p k).isSome then p else setP p k v) rest

/-! ### Data model (`types.go`) -/

/-- `TaskResponse` from `types.go`: the provider's answer to task creation. -/

structure TaskResponse where
  ID : String
  Status : TaskStatus
  Error : Option String
deriving DecidableEq

/-- `TaskStatusResponse` from `types.go`: one status lookup's decoded body.
`CreatedAt`/`UpdatedAt` instants are nanoseconds since epoch. -/

structure TaskStatusResponse where
  ID : String
  Status : TaskStatus
  Progress : Option ℚ
  Output : List String
  Error : Option String
  CreatedAt : Int
  UpdatedAt : Option Int
  FailureCode : Option String
  FailureMessage : Option String
  Metadata : Option GoMap
deriving DecidableEq

/-- `VideoGenerationResult` from `types.go`.  `Duration` is the wall-clock
`time.Duration` (nanoseconds) of the whole call; `Metadata` is a nilable
`map[string]interface{}`. -/

structure VideoGenerationResult where
  ID : String
  Status : TaskStatus
  OutputURLs : List String
  Duration : Nat
  Model : String
  Error : Option String
  FailureCode : Option String
  Metadata : Option GoMap
deriving DecidableEq

/-- `UsageMetadata` from `types.go`; pointer fields become `Option`. -/

structure UsageMetadata where
  OrganizationID : String := ""
  ProductID : String := ""
  TaskType : String := ""
  Agent : String := ""
  SubscriptionID : String := ""
  TraceID : String := ""
  ParentTransactionID : String := ""
  TraceType : String := ""
  TraceName : String := ""
  Environment : String := ""
  Region : String := ""
  RetryNumber : Option Int := none
  CredentialAlias : String := ""
  Subscriber : Option (List (String × String)) := none
  TaskID : String := ""
  ResponseQualityScore : Option ℚ := none
  Custom : Option GoMap := none
deriving DecidableEq

/-! ### Metering payload construction (`metering.go`, `buildMeteringPayload`) -/

/-- The initial value of `stopReason` in `buildMeteringPayload`:
`"END"`, overridden to `"ERROR"` for FAILED and `"CANCELLED"` for CANCELED. -/

def stopReasonFor (status : TaskStatus) : String :=
  if status = TaskStatusFailed then "ERROR"
  else if status = TaskStatusCanceled then "CANCELLED"
  else "END"

/-- The `videoDurationSeconds` extraction of `buildMeteringPayload`: default
`5.0`; `result.Metadata["duration"]` as `int`, else as `float64`, else
`result.Metadata["durationSeconds"]` as `float64`.  Note the `int`-typed
assertion exists only for the `"duration"` key. -/

def extractVideoDuration (meta : Option GoMap) : ℚ :=
  match meta with
  | none => 5
  | some m =>
      match lookupGo m "duration" with
      | some (.int n) => (n : ℚ)
      | some (.float q) => q
      | _ =>
          match lookupGo m "durationSeconds" with
          | some (.float q) => q
          | _ => 5

/-- The base payload map literal of `buildMeteringPayload` (fixed computed
fields).  `now` is `time.Now()` in nanoseconds since epoch; `requestTime` is
`now.Add(-result.Duration)` and `requestDuration` is
`result.Duration.Milliseconds()`. -/

def basePayload (result : VideoGenerationResult) (now : Int) : Payload :=
  setP (setP (setP (setP (setP (setP (setP (setP (setP (setP (setP (setP (setP
    emptyP
    "operationType" (.str "VIDEO"))
    "provider" (.str "runway"))
    "modelSource" (.str "RUNWAY"))
    "model" (.str result.Model))
    "transactionId" (.str result.ID))
    "requestTime" (.time (now - (result.Duration : Int))))
    "responseTime" (.time now))
    "requestDuration" (.int ((result.Duration / 1000000 : Nat) : Int)))
    "durationSeconds" (.float (extractVideoDuration result.Metadata)))
    "stopReason" (.str (stopReasonFor result.Status)))
    "costType" (.str "AI"))
    "isStreamed" (.bool false))
    "middlewareSource" (.str "revenium-middleware-runway-go")

/-- The error-information block of `buildMeteringPayload`: a non-nil
`result.Error` adds `errorReason` and forces `stopReason` to `"ERROR"`;
a non-nil `result.FailureCode` adds `failureCode`. -/

def addErrorInfo (p : Payload) (result : VideoGenerationResult) : Payload :=
  let p1 :=
    match result.Error with
    | some e => setP (setP p "errorReason" (.str e)) "stopReason" (.str "ERROR")
    | none => p
  match result.FailureCode with
  | some fc => setP p1 "failureCode" (.str fc)
  | none => p1

/-- The result-metadata merge loop of `buildMeteringPayload`: each entry is
added only if its key is not already in the payload. -/

def addResultMetadata (p : Payload) : Option GoMap → Payload
  | some m => mergeIfAbsent p m
  | none => p

/-- `payload[k] = s` guarded by `s != ""`, the shape of every string field
write in the usage-metadata block. -/

def setStrIf (p : Payload) (k : String) (s : String) : Payload :=
  if s = "" then p else setP p k (.str s)

/-- `payload[k] = v` guarded by a non-nil pointer/map/slice. -/

def setOpt (p : Payload) (k : String) : Option MVal → Payload
  | some v => setP p k v
  | none => p

/-- The sixteen unconditional-on-collision caller-field writes of the
usage-metadata block of `buildMeteringPayload`, in source order. -/

def addUsageFields (p : Payload) (md : UsageMetadata) : Payload :=
  let p := setStrIf p "organizationId" md.OrganizationID
  let p := setStrIf p "productId" md.ProductID
  let p := setStrIf p "taskType" md.TaskType
  let p := setStrIf p "agent" md.Agent
  let p := setStrIf p "subscriptionId" md.SubscriptionID
  let p := setStrIf p "traceId" md.TraceID
  let p := setStrIf p "parentTransactionId" md.ParentTransactionID
  let p := setStrIf p "traceType" md.TraceType
  let p := setStrIf p "traceName" md.TraceName
  let p := setStrIf p "environment" md.Environment
  let p := setStrIf p "region" md.Region
  let p := setOpt p "retryNumber" (md.RetryNumber.map (.int ·))
  let p := setStrIf p "credentialAlias" md.CredentialAlias
  let p := setOpt p "subscriber" (md.Subscriber.map (.strMap ·))
  let p := setStrIf p "taskId" md.TaskID
  setOpt p "responseQualityScore" (md.ResponseQualityScore.map (.float ·))

/-- The whole `if metadata != nil` block: the caller fields, then the
guarded merge of the `Custom` map. -/

def addUsageMetadata (p : Payload) : Option UsageMetadata → Payload
  | none => p
  | some md =>
      let p1 := addUsageFields p md
      match md.Custom with
      | some c => mergeIfAbsent p1 c
      | none => p1

/-- `buildMeteringPayload` from `metering.go`: fixed fields, error info,
result-metadata merge, usage-metadata block, in source order. -/

def buildMeteringPayload (result : VideoGenerationResult)
    (metadata : Option UsageMetadata) (now : Int) : Payload :=
  addUsageMetadata
    (addResultMetadata (addErrorInfo (basePayload result now) result)
      result.Metadata)
    metadata

/-! ### Payload stage lemmas -/

/-- The fifteen output keys the fixed computed fields (base payload plus
error info) can occupy. -/

def fixedFieldKeys : List String :=
  ["operationType", "provider", "modelSource", "model", "transactionId",
   "requestTime", "responseTime", "requestDuration", "durationSeconds",
   "stopReason", "costType", "isStreamed", "middlewareSource",
   "errorReason", "failureCode"]

/-- The sixteen output keys written by the caller-supplied identification
fields of `UsageMetadata`. -/

def callerFieldKeys : List String :=
  ["organizationId", "productId", "taskType", "agent", "subscriptionId",
   "traceId", "parentTransactionId", "traceType", "traceName", "environment",
   "region", "retryNumber", "credentialAlias", "subscriber", "taskId",
   "responseQualityScore"]

/-! ### Completion poller (`client.go`, `WaitForTaskCompletion`) -/

/-- `PollingConfig` from `types.go`; durations in nanoseconds. -/

structure PollingConfig where
  MaxAttempts : Nat
  InitialInterval : Nat
  MaxInterval : Nat
  Timeout : Nat
deriving DecidableEq

/-- `DefaultPollingConfig()`: 120 attempts, 2 s initial, 10 s cap,
20 min timeout. -/

def DefaultPollingConfig : PollingConfig :=
  { MaxAttempts := 120
    InitialInterval := 2 * 1000000000
    MaxInterval := 10 * 1000000000
    Timeout := 20 * 60 * 1000000000 }

/-- Outcome of one `GetTaskStatus` call: a transient error, or a decoded
status response. -/

inductive PollLookup where
  | err
  | ok (s : TaskStatusResponse)
deriving DecidableEq

/-- The ambient world of one polling run, indexed by the iteration counter
`attempts` (1-based): whether `ctx.Done()` is closed when the iteration's
cancellation check runs, the result of the iteration's status lookup, and
the wall-clock time that lookup consumes. -/

structure PollEnv where
  cancelled : Nat → Bool
  lookup : Nat → PollLookup
  lookupTime : Nat → Nat

/-- The `(status, error)` pairs `WaitForTaskCompletion` can return. -/

inductive WaitOutcome where
  | timeoutErr
  | maxAttemptsErr
  | ctxCancelled
  | succeeded (s : TaskStatusResponse)
  | failedTask (s : TaskStatusResponse)
  | canceledTask (s : TaskStatusResponse)
  | fuelOut
deriving DecidableEq

/-- Observable trace of a polling run: final outcome, number of
`GetTaskStatus` calls performed, and the sleep durations in order. -/

structure WaitTrace where
  outcome : WaitOutcome
  lookups : Nat
  sleeps : List Nat
deriving DecidableEq

/-- `interval = time.Duration(float64(interval) * 1.5)` capped at
`MaxInterval` (exact for all magnitudes in scope, see the header note). -/

def growInterval (cfg : PollingConfig) (interval : Nat) : Nat :=
  let next := 3 * interval / 2
  if next > cfg.MaxInterval then cfg.MaxInterval else next

/-- The body of `WaitForTaskCompletion`'s `for` loop: increment `attempts`,
check timeout, then max attempts, then cancellation, then perform one
lookup; a transient error sleeps and continues with the same interval; a
non-terminal status sleeps and continues with the grown interval.  `fuel`
only bounds the recursion; `MaxAttempts + 1` iterations always suffice. -/

def waitLoop (env : PollEnv) (cfg : PollingConfig) :
    Nat → Nat → Nat → Nat → WaitTrace
  | 0, _, _, _ => ⟨.fuelOut, 0, []⟩
  | fuel + 1, attempts0, elapsed, interval =>
      let attempts := attempts0 + 1
      if elapsed > cfg.Timeout then ⟨.timeoutErr, 0, []⟩
      else if attempts > cfg.MaxAttempts then ⟨.maxAttemptsErr, 0, []⟩
      else if env.cancelled attempts then ⟨.ctxCancelled, 0, []⟩
      else
        let elapsed1 := elapsed + env.lookupTime attempts
        match env.lookup attempts with
        | .err =>
            let t := waitLoop env cfg fuel attempts (elapsed1 + interval)
              interval
            ⟨t.outcome, t.lookups + 1, interval :: t.sleeps⟩
        | .ok s =>
            if s.Status = TaskStatusSucceeded then ⟨.succeeded s, 1, []⟩
            else if s.Status = TaskStatusFailed then ⟨.failedTask s, 1, []⟩
            else if s.Status = TaskStatusCanceled then ⟨.canceledTask s, 1, []⟩
            else
              let t := waitLoop env cfg fuel attempts (elapsed1 + interval)
                (growInterval cfg interval)
              ⟨t.outcome, t.lookups + 1, interval :: t.sleeps⟩

/-- `WaitForTaskCompletion`: a nil config is replaced by the default, then
the loop runs from zero attempts, zero elapsed time and the initial
interval. -/

def WaitForTaskCompletion (env : PollEnv)
    (pollingConfig : Option PollingConfig) : WaitTrace :=
  let cfg := pollingConfig.getD DefaultPollingConfig
  waitLoop env cfg (cfg.MaxAttempts + 1) 0 0 cfg.InitialInterval

/-- The interval actually in effect at the sleep following the `k`-th
lookup (0-based sleeps): the initial interval, grown by `growInterval`
after each successful non-terminal lookup and left unchanged after each
failed lookup.  This is the amended form of the backoff claim. -/

def ivlSeq (env : PollEnv) (cfg : PollingConfig) : Nat → Nat
  | 0 => cfg.InitialInterval
  | k + 1 =>
      match env.lookup (k + 1) with
      | .err => ivlSeq env cfg k
      | .ok s =>
          if s.Status = TaskStatusSucceeded ∨ s.Status = TaskStatusFailed
              ∨ s.Status = TaskStatusCanceled then
            ivlSeq env cfg k
          else growInterval cfg (ivlSeq env cfg k)

/-- A lookup that cannot end the loop: a transient error, or a response
whose status is none of the three terminal values. -/

def nonTerminalLookup (env : PollEnv) (k : Nat) : Prop :=
  env.lookup k = .err ∨ ∃ s, env.lookup k = .ok s ∧
    s.Status ≠ TaskStatusSucceeded ∧ s.Status ≠ TaskStatusFailed ∧
    s.Status ≠ TaskStatusCanceled

/-! ### Configuration (`config.go`) -/

/-- The error taxonomy of `errors.go` (`ErrorType` constants). -/

inductive ErrorType where
  | config | metering | provider | auth | network | task | validation
  | internal
deriving DecidableEq

/-- A `*ReveniumError` as far as the verified control flow inspects it:
its type tag and message. -/

structure RErr where
  type : ErrorType
  message : String
deriving DecidableEq

/-- `Config` from `config.go`. -/

structure Config where
  RunwayAPIKey : String := ""
  RunwayBaseURL : String := ""
  RunwayVersion : String := ""
  ReveniumAPIKey : String := ""
  ReveniumBaseURL : String := ""
  ReveniumOrgID : String := ""
  ReveniumProductID : String := ""
  LogLevel : String := ""
  VerboseStartup : Bool := false
deriving DecidableEq

def WithRunwayAPIKey (key : String) : Config → Config :=
  fun c => { c with RunwayAPIKey := key }

def WithRunwayBaseURL (url : String) : Config → Config :=
  fun c => { c with RunwayBaseURL := url }

def WithReveniumAPIKey (key : String) : Config → Config :=
  fun c => { c with ReveniumAPIKey := key }

def WithReveniumBaseURL (url : String) : Config → Config :=
  fun c => { c with ReveniumBaseURL := url }

/-- `getEnvOrDefault`; the ambient environment is a total map from variable
names to values, `""` meaning unset, exactly as `os.Getenv` reports it. -/

def getEnvOrDefault (env : String → String) (key defaultValue : String) :
    String :=
  if env key ≠ "" then env key else defaultValue

/-- `NormalizeReveniumBaseURL` from `config.go`. -/

def NormalizeReveniumBaseURL (baseURL : String) : String :=
  if baseURL = "" then "https://api.revenium.ai"
  else
    let b := if baseURL.endsWith "/" then baseURL.dropRight 1 else baseURL
    if b.length ≥ 9 ∧ b.takeRight 9 = "/meter/v2" then b.dropRight 9
    else if b.length ≥ 6 ∧ b.takeRight 6 = "/meter" then b.dropRight 6
    else if b.length ≥ 3 ∧ b.takeRight 3 = "/v2" then b.dropRight 3
    else b

/-- `Config.LoadFromEnv` (the `.env`-file loading only mutates the ambient
environment, which `env` already reflects): every field is assigned from
the environment, with the source's defaults. -/

def LoadFromEnv (c : Config) (env : String → String) : Config :=
  { c with
    RunwayAPIKey := env "RUNWAY_API_KEY"
    RunwayBaseURL :=
      getEnvOrDefault env "RUNWAY_BASE_URL" "https://api.runwayml.com"
    RunwayVersion := getEnvOrDefault env "RUNWAY_VERSION" "2024-11-06"
    ReveniumAPIKey := env "REVENIUM_METERING_API_KEY"
    ReveniumBaseURL := NormalizeReveniumBaseURL
      (getEnvOrDefault env "REVENIUM_METERING_BASE_URL"
        "https://api.revenium.ai")
    ReveniumOrgID := env "REVENIUM_ORGANIZATION_ID"
    ReveniumProductID := env "REVENIUM_PRODUCT_ID"
    LogLevel := getEnvOrDefault env "REVENIUM_LOG_LEVEL" "INFO"
    VerboseStartup := env "REVENIUM_VERBOSE_STARTUP" == "true"
      || env "REVENIUM_VERBOSE_STARTUP" == "1" }

/-- `isValidAPIKeyFormat`: at least four bytes and prefix `hak_`. -/

def isValidAPIKeyFormat (key : String) : Bool :=
  if key.length < 4 then false else key.take 4 == "hak_"

/-- `Config.Validate` from `config.go`. -/

def Validate (c : Config) : Option RErr :=
  if c.ReveniumAPIKey = "" then
    some ⟨.config, "REVENIUM_METERING_API_KEY is required"⟩
  else if !isValidAPIKeyFormat c.ReveniumAPIKey then
    some ⟨.config, "invalid Revenium API key format"⟩
  else if c.RunwayAPIKey = "" then
    some ⟨.config, "RUNWAY_API_KEY is required"⟩
  else none

/-! ### Global middleware state (`middleware.go`, `Initialize`) -/

/-- The `ReveniumRunway` client as far as `Initialize` constructs it: both
sub-clients are functions of the config alone. -/

structure ReveniumRunwayModel where
  config : Config
deriving DecidableEq

/-- The package-level mutable state guarded by `globalMu`. -/

structure GlobalState where
  globalClient : Option ReveniumRunwayModel
  initialized : Bool
deriving DecidableEq

/-- `Initialize(opts...)` as a transition on the global state: an early nil
return when already initialized; otherwise options are folded over a zero
config, the environment is loaded over it, validation may abort (leaving
the state untouched), and on success the client is installed and the flag
set. -/

def InitializeMiddleware (st : GlobalState) (opts : List (Config → Config))
    (env : String → String) : GlobalState × Option RErr :=
  if st.initialized then (st, none)
  else
    let cfg0 : Config := {}
    let cfg1 := opts.foldl (fun c opt => opt c) cfg0
    let cfg := LoadFromEnv cfg1 env
    match Validate cfg with
    | some e => (st, some e)
    | none => ({ globalClient := some ⟨cfg⟩, initialized := true }, none)

/-! ### Metering delivery (`metering.go`, `sendWithRetry`) -/

/-- Transport-level outcome of one metering POST: a failed
`meteringHTTPClient.Do`, or a response with its status code and body. -/

inductive HTTPOutcome where
  | netErr (msg : String)
  | resp (status : Nat) (body : String)
deriving DecidableEq

/-- The errors `sendMeteringRequest` can produce, tagged as in the source
(`NewConfigError`/`NewNetworkError`/`NewValidationError`/`NewMeteringError`);
response-derived errors carry the status and body instead of the formatted
message. -/

inductive SendErr where
  | config (msg : String)
  | network (msg : String)
  | validation (status : Nat) (body : String)
  | apiError (status : Nat) (body : String)
deriving DecidableEq

/-- `IsValidationError` from `errors.go`, restricted to the errors the
retry loop can see. -/

def IsValidationError : SendErr → Bool
  | .validation _ _ => true
  | _ => false

/-- `sendMeteringRequest`: missing API key aborts with a config error; a
transport failure is a network error; a 4xx response is a validation
error; any other non-2xx is a metering API error; 2xx succeeds. -/

def sendMeteringRequest (cfg : Config) (h : HTTPOutcome) : Option SendErr :=
  if cfg.ReveniumAPIKey = "" then
    some (.config "Revenium API key not configured")
  else
    match h with
    | .netErr msg => some (.network msg)
    | .resp status body =>
        if status < 200 ∨ status ≥ 300 then
          if 400 ≤ status ∧ status < 500 then some (.validation status body)
          else some (.apiError status body)
        else none

/-- How `sendWithRetry` returns: a nil error, an immediately returned
validation error, or `NewMeteringError("metering failed after retries",
lastErr)`. -/

inductive RetryResult where
  | success
  | aborted (e : SendErr)
  | exhausted (last : Option SendErr)
deriving DecidableEq

/-- Observable trace of one `sendWithRetry` run: result, number of
delivery attempts performed, and the backoff sleeps in order (ms). -/

structure RetryTrace where
  result : RetryResult
  attempts : Nat
  sleeps : List Nat
deriving DecidableEq

/-- The retry loop body (`for attempt := 0; attempt < maxRetries;
attempt++`): sleeping `backoff` then doubling it before every attempt but
the first; a nil send returns success; a validation error returns at once;
anything else is recorded as `lastErr` and retried. -/

def sendWithRetryGo (cfg : Config) (outcomes : Nat → HTTPOutcome) :
    Nat → Nat → Nat → Option SendErr → RetryTrace
  | attempt, 0, _, lastErr => ⟨.exhausted lastErr, attempt, []⟩
  | attempt, r + 1, backoff, _lastErr =>
      let slept : List Nat := if attempt > 0 then [backoff] else []
      let backoff1 := if attempt > 0 then backoff * 2 else backoff
      match sendMeteringRequest cfg (outcomes attempt) with
      | none => ⟨.success, attempt + 1, slept⟩
      | some e =>
          if IsValidationError e then ⟨.aborted e, attempt + 1, slept⟩
          else
            let t := sendWithRetryGo cfg outcomes (attempt + 1) r backoff1
              (some e)
            ⟨t.result, t.attempts, slept ++ t.sleeps⟩

/-- `sendWithRetry`: `maxRetries = 3`, `initialBackoff = 100 ms`. -/

def sendWithRetry (cfg : Config) (outcomes : Nat → HTTPOutcome) :
    RetryTrace :=
  sendWithRetryGo cfg outcomes 0 3 100 none

/-! ### Orchestrator (`middleware.go`, generate operations) -/

/-- `ImageToVideoRequest` from `types.go`. -/

structure ImageToVideoRequest where
  PromptImage : String := ""
  PromptText : String := ""
  Model : String := ""
  Duration : Int := 0
  Ratio : String := ""
  Seed : Option Int := none
  Watermark : Option Bool := none
deriving DecidableEq

/-- `VideoToVideoRequest` from `types.go`. -/

structure VideoToVideoRequest where
  PromptVideo : String := ""
  PromptText : String := ""
  Model : String := ""
  Duration : Int := 0
  Seed : Option Int := none
  Watermark : Option Bool := none
deriving DecidableEq

/-- `VideoUpscaleRequest` from `types.go`. -/

structure VideoUpscaleRequest where
  PromptVideo : String := ""
  Model : String := ""
deriving DecidableEq

/-- The synchronous error a generate operation returns to the caller. -/

inductive GenError where
  | createFailed (e : RErr)
  | pollFailed (o : WaitOutcome)
deriving DecidableEq

/-- One generate call's observable effect: the value returned to the
caller, and the payload of the spawned fire-and-forget metering goroutine
(`none` when no goroutine was spawned). -/

structure GenOutcome where
  result : Except GenError VideoGenerationResult
  dispatched : Option Payload

/-- `ReveniumRunway.ImageToVideo`: default the model, create the task
(`createOutcome` is the provider's answer), await completion, and — only
when `WaitForTaskCompletion` returned a nil error, i.e. SUCCEEDED — build
the result, store the requested duration under `requestedDuration`, and
spawn exactly one metering dispatch.  `wallClock` is the `time.Since`
elapsed duration; `now` is the dispatch goroutine's `time.Now()`. -/

def ImageToVideo (createOutcome : Except RErr TaskResponse) (env : PollEnv)
    (req : ImageToVideoRequest) (metadata : Option UsageMetadata)
    (wallClock : Nat) (now : Int) : GenOutcome :=
  let model := if req.Model = "" then "gen3a_turbo" else req.Model
  match createOutcome with
  | .error e => ⟨.error (.createFailed e), none⟩
  | .ok taskResp =>
      let t := WaitForTaskCompletion env (some DefaultPollingConfig)
      match t.outcome with
      | .succeeded s =>
          let result : VideoGenerationResult :=
            { ID := taskResp.ID, Status := s.Status, OutputURLs := s.Output,
              Duration := wallClock, Model := model, Error := s.Error,
              FailureCode := s.FailureCode,
              Metadata := some [("requestedDuration",
                .int (if req.Duration > 0 then req.Duration else 5))] }
          ⟨.ok result, some (buildMeteringPayload result metadata now)⟩
      | o => ⟨.error (.pollFailed o), none⟩

/-- `ReveniumRunway.VideoToVideo`; structurally identical to
`ImageToVideo` (same default model, same `requestedDuration` storage). -/

def VideoToVideo (createOutcome : Except RErr TaskResponse) (env : PollEnv)
    (req : VideoToVideoRequest) (metadata : Option UsageMetadata)
    (wallClock : Nat) (now : Int) : GenOutcome :=
  let model := if req.Model = "" then "gen3a_turbo" else req.Model
  match createOutcome with
  | .error e => ⟨.error (.createFailed e), none⟩
  | .ok taskResp =>
      let t := WaitForTaskCompletion env (some DefaultPollingConfig)
      match t.outcome with
      | .succeeded s =>
          let result : VideoGenerationResult :=
            { ID := taskResp.ID, Status := s.Status, OutputURLs := s.Output,
              Duration := wallClock, Model := model, Error := s.Error,
              FailureCode := s.FailureCode,
              Metadata := some [("requestedDuration",
                .int (if req.Duration > 0 then req.Duration else 5))] }
          ⟨.ok result, some (buildMeteringPayload result metadata now)⟩
      | o => ⟨.error (.pollFailed o), none⟩

/-- `ReveniumRunway.UpscaleVideo`: default model `upscale`, no metadata
map on the result. -/

def UpscaleVideo (createOutcome : Except RErr TaskResponse) (env : PollEnv)
    (req : VideoUpscaleRequest) (metadata : Option UsageMetadata)
    (wallClock : Nat) (now : Int) : GenOutcome :=
  let model := if req.Model = "" then "upscale" else req.Model
  match createOutcome with
  | .error e => ⟨.error (.createFailed e), none⟩
  | .ok taskResp =>
      let t := WaitForTaskCompletion env (some DefaultPollingConfig)
      match t.outcome with
      | .succeeded s =>
          let result : VideoGenerationResult :=
            { ID := taskResp.ID, Status := s.Status, OutputURLs := s.Output,
              Duration := wallClock, Model := model, Error := s.Error,
              FailureCode := s.FailureCode, Metadata := none }
          ⟨.ok result, some (buildMeteringPayload result metadata now)⟩
      | o => ⟨.error (.pollFailed o), none⟩

/-! ### Concrete fixtures for the claim theorems and witnesses -/

/-- A status lookup response with terminal status FAILED. -/

def sampleFailedStatus : TaskStatusResponse :=
  { ID := "task-1", Status := TaskStatusFailed, Progress := none,
    Output := [], Error := some "generation failed", CreatedAt := 0,
    UpdatedAt := none, FailureCode := some "INTERNAL.FAILURE",
    FailureMessage := none, Metadata := none }

/-- A status lookup response with terminal status SUCCEEDED. -/

def sampleSucceededStatus : TaskStatusResponse :=
  { ID := "task-1", Status := TaskStatusSucceeded, Progress := none,
    Output := ["https://example.invalid/video.mp4"], Error := none,
    CreatedAt := 0, UpdatedAt := none, FailureCode := none,
    FailureMessage := none, Metadata := none }

/-- A status lookup response with non-terminal status RUNNING. -/

def sampleRunningStatus : TaskStatusResponse :=
  { ID := "task-1", Status := TaskStatusRunning, Progress := none,
    Output := [], Error := none, CreatedAt := 0, UpdatedAt := none,
    FailureCode := none, FailureMessage := none, Metadata := none }

/-- A world where every lookup reports FAILED, never cancelled. -/

def envFailed : PollEnv :=
  { cancelled := fun _ => false, lookup := fun _ => .ok sampleFailedStatus,
    lookupTime := fun _ => 0 }

/-- A world where every lookup reports SUCCEEDED, never cancelled. -/

def envSucceeded : PollEnv :=
  { cancelled := fun _ => false,
    lookup := fun _ => .ok sampleSucceededStatus, lookupTime := fun _ => 0 }

/-- A world where every lookup reports RUNNING, never cancelled. -/

def envRunning : PollEnv :=
  { cancelled := fun _ => false, lookup := fun _ => .ok sampleRunningStatus,
    lookupTime := fun _ => 0 }

/-- A world whose every status lookup fails transiently, never cancelled. -/

def envErrLookups : PollEnv :=
  { cancelled := fun _ => false, lookup := fun _ => .err,
    lookupTime := fun _ => 0 }

/-- A world where the cancellation signal is already closed at entry. -/

def envCancelledNow : PollEnv :=
  { cancelled := fun _ => true, lookup := fun _ => .err,
    lookupTime := fun _ => 0 }

/-- A polling config with a zero attempt budget. -/

def cfgZeroAttempts : PollingConfig :=
  { MaxAttempts := 0, InitialInterval := 100, MaxInterval := 1000,
    Timeout := 1000000 }

/-- The default config with the attempt budget cut to three. -/

def cfgThreeAttempts : PollingConfig :=
  { MaxAttempts := 3, InitialInterval := 2 * 1000000000,
    MaxInterval := 10 * 1000000000, Timeout := 20 * 60 * 1000000000 }

/-- A small config for exercising the backoff trace. -/

def cfgBackoff : PollingConfig :=
  { MaxAttempts := 2, InitialInterval := 100, MaxInterval := 1000,
    Timeout := 1000000 }

/-- The provider's answer to a successful task creation. -/

def sampleTask : TaskResponse :=
  { ID := "task-1", Status := TaskStatusPending, Error := none }

def sampleI2VReq : ImageToVideoRequest :=
  { PromptImage := "https://example.invalid/frame.png", Duration := 10 }

def sampleV2VReq : VideoToVideoRequest :=
  { PromptVideo := "https://example.invalid/in.mp4", Duration := 10 }

def sampleUpReq : VideoUpscaleRequest :=
  { PromptVideo := "https://example.invalid/in.mp4" }

/-- The `VideoGenerationResult` the orchestrator builds for
`sampleI2VReq` after `envSucceeded` resolves the poll. -/

def i2vRunResult : VideoGenerationResult :=
  { ID := "task-1", Status := TaskStatusSucceeded,
    OutputURLs := ["https://example.invalid/video.mp4"], Duration := 0,
    Model := "gen3a_turbo", Error := none, FailureCode := none,
    Metadata := some [("requestedDuration", .int 10)] }

/-- A successful result whose metadata already binds `organizationId`. -/

def resultOrgMeta : VideoGenerationResult :=
  { ID := "task-2", Status := TaskStatusSucceeded, OutputURLs := [],
    Duration := 0, Model := "gen3a_turbo", Error := none,
    FailureCode := none,
    Metadata := some [("organizationId", .str "from-result-metadata")] }

/-- Caller metadata carrying only an organization id. -/

def mdOrgCaller : UsageMetadata := { OrganizationID := "from-caller" }

/-- A result whose metadata holds an `int`-typed `durationSeconds`. -/

def resultIntDurSecs : VideoGenerationResult :=
  { ID := "task-3", Status := TaskStatusSucceeded, OutputURLs := [],
    Duration := 0, Model := "gen3a_turbo", Error := none,
    FailureCode := none, Metadata := some [("durationSeconds", .int 3)] }

/-- A result whose metadata holds an `int`-typed `duration`. -/

def resultIntDur : VideoGenerationResult :=
  { ID := "task-3", Status := TaskStatusSucceeded, OutputURLs := [],
    Duration := 0, Model := "gen3a_turbo", Error := none,
    FailureCode := none, Metadata := some [("duration", .int 7)] }

/-- A SUCCEEDED result that nevertheless carries an error message. -/

def resultSucceededWithError : VideoGenerationResult :=
  { ID := "task-4", Status := TaskStatusSucceeded, OutputURLs := [],
    Duration := 0, Model := "gen3a_turbo", Error := some "partial failure",
    FailureCode := none, Metadata := none }

/-- A config with a well-formed metering API key. -/

def cfgOk : Config :=
  { RunwayAPIKey := "key_runway", ReveniumAPIKey := "hak_test" }

/-- Delivery world: 500, then 500, then 200. -/

def outcomes550 : Nat → HTTPOutcome := fun k =>
  if k = 0 then .resp 500 "oops-a"
  else if k = 1 then .resp 500 "oops-b"
  else .resp 200 "accepted"

/-- Delivery world: every attempt answers 400. -/

def outcomes400 : Nat → HTTPOutcome := fun _ => .resp 400 "bad payload"

/-- Delivery world: every attempt fails at the transport. -/

def outcomesNet : Nat → HTTPOutcome := fun _ => .netErr "connection refused"

/-- An environment providing both required API keys. -/

def envInit : String → String := fun k =>
  if k = "REVENIUM_METERING_API_KEY" then "hak_test"
  else if k = "RUNWAY_API_KEY" then "key_runway"
  else ""

theorem getP_setP (p : Payload) (k k' : String) (v : MVal) :
    getP (setP p k v) k' = if k' = k then some v else getP p k' := rfl

theorem getP_setP_self (p : Payload) (k : String) (v : MVal) :
    getP (setP p k v) k = some v := by simp [getP, setP]

theorem getP_setP_of_ne (p : Payload) {k k' : String} (v : MVal) (h : k' ≠ k) :
    getP (setP p k v) k' = getP p k' := by simp [getP, setP, h]

/-- The guarded merge never changes a key that is already present. -/

theorem mergeIfAbsent_preserves (m : GoMap) :
    ∀ (p : Payload) (k : String), (getP p k).isSome →
      getP (mergeIfAbsent p m) k = getP p k := by
  induction m with
  | nil => intro p k _; rfl
  | cons kv rest ih =>
      intro p k hk
      obtain ⟨k', v⟩ := kv
      by_cases hpres : (getP p k').isSome
      · simpa [mergeIfAbsent, hpres] using ih p k hk
      · have hne : k ≠ k' := by
          intro h; rw [h] at hk; exact hpres hk
        have h1 : getP (setP p k' v) k = getP p k := getP_setP_of_ne p v hne
        have h2 : (getP (setP p k' v) k).isSome := by rw [h1]; exact hk
        have hstep : mergeIfAbsent p ((k', v) :: rest) =
            mergeIfAbsent (setP p k' v) rest := by
          simp [mergeIfAbsent, hpres]
        rw [hstep, ih (setP p k' v) k h2, h1]

theorem getP_setStrIf_of_ne (p : Payload) {k k' : String} (s : String)
    (h : k' ≠ k) : getP (setStrIf p k s) k' = getP p k' := by
  unfold setStrIf; split
  · rfl
  · exact getP_setP_of_ne p _ h

theorem getP_setOpt_of_ne (p : Payload) {k k' : String} (o : Option MVal)
    (h : k' ≠ k) : getP (setOpt p k o) k' = getP p k' := by
  cases o with
  | none => rfl
  | some v => exact getP_setP_of_ne p v h

/-- The caller-field writes do not touch keys outside `callerFieldKeys`. -/

theorem addUsageFields_preserves (p : Payload) (md : UsageMetadata)
    {k : String} (h : k ∉ callerFieldKeys) :
    getP (addUsageFields p md) k = getP p k := by
  simp only [callerFieldKeys, List.mem_cons, List.not_mem_nil, or_false,
    not_or] at h
  obtain ⟨h1, h2, h3, h4, h5, h6, h7, h8, h9, h10, h11, h12, h13, h14,
    h15, h16⟩ := h
  simp only [addUsageFields]
  rw [getP_setOpt_of_ne _ _ h16, getP_setStrIf_of_ne _ _ h15,
    getP_setOpt_of_ne _ _ h14, getP_setStrIf_of_ne _ _ h13,
    getP_setOpt_of_ne _ _ h12, getP_setStrIf_of_ne _ _ h11,
    getP_setStrIf_of_ne _ _ h10, getP_setStrIf_of_ne _ _ h9,
    getP_setStrIf_of_ne _ _ h8, getP_setStrIf_of_ne _ _ h7,
    getP_setStrIf_of_ne _ _ h6, getP_setStrIf_of_ne _ _ h5,
    getP_setStrIf_of_ne _ _ h4, getP_setStrIf_of_ne _ _ h3,
    getP_setStrIf_of_ne _ _ h2, getP_setStrIf_of_ne _ _ h1]

/-- A key already present and outside the caller-field set passes through
the whole usage-metadata block (caller fields and `Custom`) unchanged. -/

theorem addUsageMetadata_preserves (p : Payload) (o : Option UsageMetadata)
    {k : String} (hp : (getP p k).isSome) (h : k ∉ callerFieldKeys) :
    getP (addUsageMetadata p o) k = getP p k := by
  cases o with
  | none => rfl
  | some md =>
      have hfields := addUsageFields_preserves p md h
      cases hc : md.Custom with
      | none => simpa [addUsageMetadata, hc] using hfields
      | some c =>
          have hsome : (getP (addUsageFields p md) k).isSome := by
            rw [hfields]; exact hp
          simp only [addUsageMetadata, hc]
          rw [mergeIfAbsent_preserves c _ k hsome, hfields]

/-- The error-info block does not touch keys other than its three. -/

theorem getP_addErrorInfo_of_ne (p : Payload) (r : VideoGenerationResult)
    {k : String} (h1 : k ≠ "errorReason") (h2 : k ≠ "stopReason")
    (h3 : k ≠ "failureCode") : getP (addErrorInfo p r) k = getP p k := by
  cases he : r.Error <;> cases hf : r.FailureCode <;>
    simp only [addErrorInfo, he, hf] <;>
    first
      | rfl
      | rw [getP_setP_of_ne _ _ h3, getP_setP_of_ne _ _ h2,
          getP_setP_of_ne _ _ h1]
      | rw [getP_setP_of_ne _ _ h2, getP_setP_of_ne _ _ h1]
      | rw [getP_setP_of_ne _ _ h3]

/-- A fixed-field value established after the error-info stage survives to
the final payload: the result-metadata merge and the `Custom` merge are
guarded, and the caller-field keys are disjoint from the fixed keys. -/

theorem getP_buildMeteringPayload_fixed (result : VideoGenerationResult)
    (metadata : Option UsageMetadata) (now : Int) {k : String} {v : MVal}
    (h2 : getP (addErrorInfo (basePayload result now) result) k = some v)
    (hcaller : k ∉ callerFieldKeys) :
    getP (buildMeteringPayload result metadata now) k = some v := by
  have h3 : getP (addResultMetadata
      (addErrorInfo (basePayload result now) result) result.Metadata) k
      = some v := by
    cases hm : result.Metadata with
    | none => simpa [addResultMetadata] using h2
    | some m =>
        simp only [addResultMetadata]
        rw [mergeIfAbsent_preserves m _ k (by rw [h2]; rfl), h2]
  have hsome : (getP (addResultMetadata
      (addErrorInfo (basePayload result now) result) result.Metadata) k).isSome := by
    rw [h3]; rfl
  unfold buildMeteringPayload
  rw [addUsageMetadata_preserves _ metadata hsome hcaller, h3]

theorem getP_basePayload_durationSeconds (result : VideoGenerationResult)
    (now : Int) :
    getP (basePayload result now) "durationSeconds" =
      some (.float (extractVideoDuration result.Metadata)) := by
  unfold basePayload
  rw [getP_setP_of_ne _ _ (by decide), getP_setP_of_ne _ _ (by decide),
    getP_setP_of_ne _ _ (by decide), getP_setP_of_ne _ _ (by decide),
    getP_setP_self]

theorem getP_basePayload_stopReason (result : VideoGenerationResult)
    (now : Int) :
    getP (basePayload result now) "stopReason" =
      some (.str (stopReasonFor result.Status)) := by
  unfold basePayload
  rw [getP_setP_of_ne _ _ (by decide), getP_setP_of_ne _ _ (by decide),
    getP_setP_of_ne _ _ (by decide), getP_setP_self]

theorem getP_addErrorInfo_stopReason (p : Payload) (r : VideoGenerationResult) :
    getP (addErrorInfo p r) "stopReason" =
      match r.Error with
      | some _ => some (.str "ERROR")
      | none => getP p "stopReason" := by
  cases he : r.Error <;> cases hf : r.FailureCode <;>
    simp only [addErrorInfo, he, hf]
  · rw [getP_setP_of_ne _ _ (by decide)]
  · rw [getP_setP_self]
  · rw [getP_setP_of_ne _ _ (by decide), getP_setP_self]

/-- The final payload's `stopReason`: a non-nil `result.Error` forces
`"ERROR"`; otherwise it is the status-derived value. -/

theorem getP_buildMeteringPayload_stopReason (result : VideoGenerationResult)
    (metadata : Option UsageMetadata) (now : Int) :
    getP (buildMeteringPayload result metadata now) "stopReason" =
      some (.str (if result.Error.isSome then "ERROR"
        else stopReasonFor result.Status)) := by
  cases he : result.Error with
  | none =>
      refine getP_buildMeteringPayload_fixed result metadata now ?_ (by decide)
      rw [getP_addErrorInfo_stopReason, he]
      simp only [Option.isSome_none, Bool.false_eq_true, if_false]
      exact getP_basePayload_stopReason result now
  | some e =>
      refine getP_buildMeteringPayload_fixed result metadata now ?_ (by decide)
      rw [getP_addErrorInfo_stopReason, he]
      simp

/-- The final payload's `durationSeconds` is always present and equals the
extraction from the result metadata (fallback `5.0`). -/

theorem getP_buildMeteringPayload_durationSeconds
    (result : VideoGenerationResult) (metadata : Option UsageMetadata)
    (now : Int) :
    getP (buildMeteringPayload result metadata now) "durationSeconds" =
      some (.float (extractVideoDuration result.Metadata)) := by
  refine getP_buildMeteringPayload_fixed result metadata now ?_ (by decide)
  rw [getP_addErrorInfo_of_ne _ _ (by decide) (by decide) (by decide)]
  exact getP_basePayload_durationSeconds result now

/-- Every key present in the base payload is one of the fixed field keys. -/

theorem basePayload_domain (result : VideoGenerationResult) (now : Int)
    {k : String} (h : (getP (basePayload result now) k).isSome) :
    k ∈ fixedFieldKeys := by
  by_contra hk
  simp only [fixedFieldKeys, List.mem_cons, List.not_mem_nil, or_false,
    not_or] at hk
  obtain ⟨n1, n2, n3, n4, n5, n6, n7, n8, n9, n10, n11, n12, n13, n14,
    n15⟩ := hk
  unfold basePayload at h
  rw [getP_setP_of_ne _ _ n13, getP_setP_of_ne _ _ n12,
    getP_setP_of_ne _ _ n11, getP_setP_of_ne _ _ n10,
    getP_setP_of_ne _ _ n9, getP_setP_of_ne _ _ n8,
    getP_setP_of_ne _ _ n7, getP_setP_of_ne _ _ n6,
    getP_setP_of_ne _ _ n5, getP_setP_of_ne _ _ n4,
    getP_setP_of_ne _ _ n3, getP_setP_of_ne _ _ n2,
    getP_setP_of_ne _ _ n1] at h
  simp [getP, emptyP] at h

/-- Every key present after the error-info stage is a fixed field key. -/

theorem addErrorInfo_domain (result : VideoGenerationResult) (now : Int)
    {k : String}
    (h : (getP (addErrorInfo (basePayload result now) result) k).isSome) :
    k ∈ fixedFieldKeys := by
  by_cases e1 : k = "errorReason"
  · subst e1; decide
  by_cases e2 : k = "stopReason"
  · subst e2; decide
  by_cases e3 : k = "failureCode"
  · subst e3; decide
  rw [getP_addErrorInfo_of_ne _ _ e1 e2 e3] at h
  exact basePayload_domain result now h

theorem fixed_caller_disjoint :
    ∀ x ∈ fixedFieldKeys, x ∉ callerFieldKeys := by decide

theorem getP_setStrIf_self (p : Payload) (k : String) {s : String}
    (h : s ≠ "") : getP (setStrIf p k s) k = some (.str s) := by
  unfold setStrIf
  rw [if_neg h, getP_setP_self]

/-- A non-empty `OrganizationID` ends up under `organizationId` after the
caller-field writes, whatever the payload held there before. -/

theorem getP_addUsageFields_organizationId (p : Payload) (md : UsageMetadata)
    (h : md.OrganizationID ≠ "") :
    getP (addUsageFields p md) "organizationId" =
      some (.str md.OrganizationID) := by
  simp only [addUsageFields]
  rw [getP_setOpt_of_ne _ _ (by decide), getP_setStrIf_of_ne _ _ (by decide),
    getP_setOpt_of_ne _ _ (by decide), getP_setStrIf_of_ne _ _ (by decide),
    getP_setOpt_of_ne _ _ (by decide), getP_setStrIf_of_ne _ _ (by decide),
    getP_setStrIf_of_ne _ _ (by decide), getP_setStrIf_of_ne _ _ (by decide),
    getP_setStrIf_of_ne _ _ (by decide), getP_setStrIf_of_ne _ _ (by decide),
    getP_setStrIf_of_ne _ _ (by decide), getP_setStrIf_of_ne _ _ (by decide),
    getP_setStrIf_of_ne _ _ (by decide), getP_setStrIf_of_ne _ _ (by decide),
    getP_setStrIf_of_ne _ _ (by decide), getP_setStrIf_self _ _ h]

theorem growInterval_le (cfg : PollingConfig) (i : Nat) :
    growInterval cfg i ≤ max cfg.InitialInterval cfg.MaxInterval := by
  simp only [growInterval]
  split
  · exact le_max_right _ _
  · next h => exact le_trans (Nat.le_of_not_lt h) (le_max_right _ _)

/-- Budget exhaustion: from iteration `a + 1` on, with no cancellation,
instantaneous lookups, only non-terminal lookups, the per-sleep bound `M`,
and enough timeout left, the loop performs exactly `MaxAttempts - a` more
lookups and then fails with the max-attempts task error. -/

theorem waitLoop_nonterminal (env : PollEnv) (cfg : PollingConfig) (M : Nat)
    (hc : ∀ k, env.cancelled k = false)
    (ht : ∀ k, env.lookupTime k = 0)
    (hl : ∀ k, nonTerminalLookup env k)
    (hM : ∀ j, j ≤ M → growInterval cfg j ≤ M) :
    ∀ fuel a e i, fuel = cfg.MaxAttempts + 1 - a → a ≤ cfg.MaxAttempts →
      i ≤ M → e + (cfg.MaxAttempts - a) * M ≤ cfg.Timeout →
      (waitLoop env cfg fuel a e i).outcome = .maxAttemptsErr ∧
      (waitLoop env cfg fuel a e i).lookups = cfg.MaxAttempts - a := by
  intro fuel
  induction fuel with
  | zero => intro a e i hfuel ha _ _; omega
  | succ f ih =>
      intro a e i hfuel ha hi he
      have hT : ¬ e > cfg.Timeout := by
        have : e ≤ cfg.Timeout := le_trans (Nat.le_add_right _ _) he
        omega
      by_cases hA : a + 1 > cfg.MaxAttempts
      · have haeq : a = cfg.MaxAttempts := by omega
        simp only [waitLoop, if_neg hT, if_pos hA]
        exact ⟨by trivial, by omega⟩
      · have helapsed : e + env.lookupTime (a + 1) + i +
            (cfg.MaxAttempts - (a + 1)) * M ≤ cfg.Timeout := by
          have h2 : cfg.MaxAttempts - a = cfg.MaxAttempts - (a + 1) + 1 := by
            omega
          rw [h2, Nat.succ_mul] at he
          rw [ht (a + 1)]
          generalize (cfg.MaxAttempts - (a + 1)) * M = q at he ⊢
          omega
        have hfuel' : f = cfg.MaxAttempts + 1 - (a + 1) := by omega
        have ha' : a + 1 ≤ cfg.MaxAttempts := by omega
        rcases hl (a + 1) with herr | ⟨s, hok, hs1, hs2, hs3⟩
        · simp only [waitLoop, if_neg hT, if_neg hA, hc (a + 1),
            Bool.false_eq_true, if_false, herr]
          obtain ⟨o1, o2⟩ := ih (a + 1) (e + env.lookupTime (a + 1) + i) i
            hfuel' ha' hi helapsed
          exact ⟨o1, by rw [o2]; omega⟩
        · simp only [waitLoop, if_neg hT, if_neg hA, hc (a + 1),
            Bool.false_eq_true, if_false, hok, if_neg hs1, if_neg hs2,
            if_neg hs3]
          obtain ⟨o1, o2⟩ := ih (a + 1) (e + env.lookupTime (a + 1) + i)
            (growInterval cfg i) hfuel' ha' (hM i hi) helapsed
          exact ⟨o1, by rw [o2]; omega⟩

/-- Every sleep the loop performs uses exactly the interval given by
`ivlSeq`: grown only after non-terminal successful lookups, unchanged
after transient lookup failures. -/

theorem waitLoop_sleeps (env : PollEnv) (cfg : PollingConfig) :
    ∀ fuel a e i, i = ivlSeq env cfg a →
      ∀ j v, (waitLoop env cfg fuel a e i).sleeps[j]? = some v →
        v = ivlSeq env cfg (a + j) := by
  intro fuel
  induction fuel with
  | zero => intro a e i _ j v h; simp [waitLoop] at h
  | succ f ih =>
      intro a e i hi j v h
      simp only [waitLoop] at h
      split at h
      · simp at h
      split at h
      · simp at h
      split at h
      · simp at h
      split at h
      · next herr =>
          cases j with
          | zero =>
              simp only [List.getElem?_cons_zero, Option.some_inj] at h
              rw [← h, hi, Nat.add_zero]
          | succ j =>
              simp only [List.getElem?_cons_succ] at h
              have hi' : i = ivlSeq env cfg (a + 1) := by
                rw [ivlSeq, herr, ← hi]
              have := ih (a + 1) _ i hi' j v h
              rw [this]; ring_nf
      · next s hok =>
          split at h
          · simp at h
          split at h
          · simp at h
          split at h
          · simp at h
          · next hns hnf hnc =>
              cases j with
              | zero =>
                  simp only [List.getElem?_cons_zero, Option.some_inj] at h
                  rw [← h, hi, Nat.add_zero]
              | succ j =>
                  simp only [List.getElem?_cons_succ] at h
                  have hi' : growInterval cfg i = ivlSeq env cfg (a + 1) := by
                    rw [ivlSeq, hok]
                    simp only [if_neg (by tauto :
                      ¬(s.Status = TaskStatusSucceeded ∨
                        s.Status = TaskStatusFailed ∨
                        s.Status = TaskStatusCanceled))]
                    rw [hi]
                  have := ih (a + 1) _ (growInterval cfg i) hi' j v h
                  rw [this]; ring_nf

/-! ### Claim theorems -/

/-- C1: at the failing input — task creation succeeds and the first poll
lookup returns terminal status FAILED — `WaitForTaskCompletion` does reach
the terminal status, yet every generate operation returns the task error
with a nil result and spawns no metering dispatch, contrary to the claim
(and spec) that a FAILED/CANCELED terminal status still produces a Result
and triggers exactly one dispatch.  The creation-failure half of the claim
(abort with no dispatch) does hold, as the last two conjuncts show. -/

theorem C1_failed_poll_skips_dispatch :
    (WaitForTaskCompletion envFailed (some DefaultPollingConfig)).outcome
        = .failedTask sampleFailedStatus ∧
    (ImageToVideo (.ok sampleTask) envFailed sampleI2VReq none 0 0).result
        = .error (.pollFailed (.failedTask sampleFailedStatus)) ∧
    (ImageToVideo (.ok sampleTask) envFailed sampleI2VReq none 0 0).dispatched
        = none ∧
    (VideoToVideo (.ok sampleTask) envFailed sampleV2VReq none 0 0).dispatched
        = none ∧
    (UpscaleVideo (.ok sampleTask) envFailed sampleUpReq none 0 0).dispatched
        = none ∧
    (ImageToVideo (.error ⟨.provider, "create failed"⟩) envFailed sampleI2VReq
        none 0 0).result = .error (.createFailed ⟨.provider, "create failed"⟩) ∧
    (ImageToVideo (.error ⟨.provider, "create failed"⟩) envFailed sampleI2VReq
        none 0 0).dispatched = none :=
  ⟨by decide, rfl, rfl, rfl, rfl, rfl, rfl⟩

/-- C3, counterexample: with a zero `MaxAttempts` budget and the
cancellation signal closed before the first iteration, the loop returns
the max-attempts task error — not the cancellation error the claim's
check order (cancellation first, then timeout, then attempts) demands. -/

theorem C3_counterexample :
    WaitForTaskCompletion envCancelledNow (some cfgZeroAttempts)
      = ⟨.maxAttemptsErr, 0, []⟩ := by decide

/-- C3, amended: each iteration checks timeout first, then the attempt
budget, then cancellation, and only then performs a lookup; consequently a
cancellation signalled before the first lookup returns the cancellation
error with zero lookups provided the attempt budget is positive (the
timeout check cannot fire on the first iteration, elapsed time being
zero), while a zero attempt budget pre-empts even cancellation. -/

theorem C3_cancel_checked_after_budget (cfg : PollingConfig) (env : PollEnv) :
    (1 ≤ cfg.MaxAttempts → env.cancelled 1 = true →
      WaitForTaskCompletion env (some cfg) = ⟨.ctxCancelled, 0, []⟩) ∧
    (cfg.MaxAttempts = 0 →
      WaitForTaskCompletion env (some cfg) = ⟨.maxAttemptsErr, 0, []⟩) := by
  constructor
  · intro hma hcanc
    simp only [WaitForTaskCompletion, Option.getD, waitLoop, Nat.zero_add]
    rw [if_neg (by omega), if_neg (by omega), hcanc, if_pos rfl]
  · intro hma
    simp only [WaitForTaskCompletion, Option.getD, waitLoop, Nat.zero_add]
    rw [if_neg (by omega), if_pos (by omega)]

/-- C3, amended, witness at a concrete input. -/

theorem C3_cancel_checked_after_budget_witness :
    1 ≤ DefaultPollingConfig.MaxAttempts ∧
    envCancelledNow.cancelled 1 = true ∧
    WaitForTaskCompletion envCancelledNow (some DefaultPollingConfig)
      = ⟨.ctxCancelled, 0, []⟩ :=
  ⟨by decide, rfl,
    (C3_cancel_checked_after_budget DefaultPollingConfig envCancelledNow).1
      (by decide) rfl⟩

/-- C8, counterexample: with every lookup failing transiently, the two
sleeps between the three loop entries both use the initial interval `100`
— the interval is not multiplied by 1.5 after a failed lookup, although
the claim requires multiplication between every two consecutive lookups
(which here would make the second sleep `growInterval cfgBackoff 100 =
150`). -/

theorem C8_counterexample :
    (WaitForTaskCompletion envErrLookups (some cfgBackoff)).sleeps
        = [100, 100] ∧
    growInterval cfgBackoff 100 = 150 := by decide

/-- C8, amended: every sleep the loop performs uses the deterministic,
non-jittered interval sequence that starts at `InitialInterval` and is
multiplied by 1.5 (capped at `MaxInterval`) exactly after each successful
non-terminal lookup, remaining unchanged after each transient lookup
failure. -/

theorem C8_backoff_growth (env : PollEnv) (cfg : PollingConfig) (j v : Nat)
    (h : (WaitForTaskCompletion env (some cfg)).sleeps[j]? = some v) :
    v = ivlSeq env cfg j := by
  have h0 : cfg.InitialInterval = ivlSeq env cfg 0 := rfl
  have := waitLoop_sleeps env cfg (cfg.MaxAttempts + 1) 0 0
    cfg.InitialInterval h0 j v (by simpa [WaitForTaskCompletion] using h)
  simpa using this

/-- C8, amended, witness: the second sleep of the all-failures run equals
the unchanged interval `ivlSeq envErrLookups cfgBackoff 1 = 100`. -/

theorem C8_backoff_growth_witness :
    (WaitForTaskCompletion envErrLookups (some cfgBackoff)).sleeps[1]?
        = some 100 ∧
    (100 : Nat) = ivlSeq envErrLookups cfgBackoff 1 :=
  ⟨by decide, C8_backoff_growth envErrLookups cfgBackoff 1 100 (by decide)⟩

theorem addResultMetadata_preserves (p : Payload) (o : Option GoMap)
    {k : String} (hp : (getP p k).isSome) :
    getP (addResultMetadata p o) k = getP p k := by
  cases o with
  | none => rfl
  | some m => exact mergeIfAbsent_preserves m p k hp

/-- C2, counterexample: the key `organizationId` is present after the
result-metadata merge (an earlier source) with the value from the result
metadata, yet the final payload holds the caller-supplied value — the
caller-field write overwrote a key present in an earlier source. -/

theorem C2_counterexample :
    getP (addResultMetadata
        (addErrorInfo (basePayload resultOrgMeta 0) resultOrgMeta)
        resultOrgMeta.Metadata) "organizationId"
      = some (.str "from-result-metadata") ∧
    getP (buildMeteringPayload resultOrgMeta (some mdOrgCaller) 0)
        "organizationId" = some (.str "from-caller") := by decide

/-- C2, amended: fixed computed fields are never overwritten by any later
source; every key present after the caller-field writes survives the
`Custom` merge unchanged; but a non-empty caller-supplied identification
field is written unconditionally, overwriting a result-metadata entry
under the same output key (the caller-field keys cannot collide with the
fixed computed keys). -/

theorem C2_merge_precedence (result : VideoGenerationResult)
    (md : UsageMetadata) (now : Int) (k : String) :
    ((getP (addErrorInfo (basePayload result now) result) k).isSome →
      getP (buildMeteringPayload result (some md) now) k
        = getP (addErrorInfo (basePayload result now) result) k) ∧
    ((getP (addUsageFields (addResultMetadata
        (addErrorInfo (basePayload result now) result) result.Metadata) md)
        k).isSome →
      getP (buildMeteringPayload result (some md) now) k
        = getP (addUsageFields (addResultMetadata
            (addErrorInfo (basePayload result now) result) result.Metadata)
            md) k) ∧
    (md.OrganizationID ≠ "" →
      getP (buildMeteringPayload result (some md) now) "organizationId"
        = some (.str md.OrganizationID)) := by
  refine ⟨?_, ?_, ?_⟩
  · intro h
    have hdom : k ∈ fixedFieldKeys := addErrorInfo_domain result now h
    have hnc : k ∉ callerFieldKeys := fixed_caller_disjoint k hdom
    have h3 : getP (addResultMetadata
        (addErrorInfo (basePayload result now) result) result.Metadata) k
        = getP (addErrorInfo (basePayload result now) result) k :=
      addResultMetadata_preserves _ _ h
    have h3s : (getP (addResultMetadata
        (addErrorInfo (basePayload result now) result) result.Metadata)
        k).isSome := by rw [h3]; exact h
    unfold buildMeteringPayload
    rw [addUsageMetadata_preserves _ _ h3s hnc, h3]
  · intro h
    simp only [buildMeteringPayload, addUsageMetadata]
    cases hc : md.Custom with
    | none => rfl
    | some c => exact mergeIfAbsent_preserves c _ k h
  · intro horg
    have hfield := getP_addUsageFields_organizationId
      (addResultMetadata (addErrorInfo (basePayload result now) result)
        result.Metadata) md horg
    simp only [buildMeteringPayload, addUsageMetadata]
    cases hc : md.Custom with
    | none => exact hfield
    | some c =>
        rw [mergeIfAbsent_preserves c _ _ (by rw [hfield]; rfl), hfield]

/-- C2, amended, witness at a concrete input. -/

theorem C2_merge_precedence_witness :
    ((getP (addErrorInfo (basePayload resultOrgMeta 0) resultOrgMeta)
        "durationSeconds").isSome) ∧
    getP (buildMeteringPayload resultOrgMeta (some mdOrgCaller) 0)
        "durationSeconds"
      = getP (addErrorInfo (basePayload resultOrgMeta 0) resultOrgMeta)
        "durationSeconds" ∧
    mdOrgCaller.OrganizationID ≠ "" ∧
    getP (buildMeteringPayload resultOrgMeta (some mdOrgCaller) 0)
        "organizationId" = some (.str mdOrgCaller.OrganizationID) :=
  ⟨by decide,
    (C2_merge_precedence resultOrgMeta mdOrgCaller 0 "durationSeconds").1
      (by decide),
    by decide,
    (C2_merge_precedence resultOrgMeta mdOrgCaller 0 "durationSeconds").2.2
      (by decide)⟩

/-- C4, counterexample: the result metadata supplies the numeric duration
`3` under the key `durationSeconds`, but as a Go `int`, so the `float64`
type assertion fails and the payload carries the fallback `5.0` instead of
the supplied value. -/

theorem C4_counterexample :
    lookupGo [("durationSeconds", MVal.int 3)] "durationSeconds"
        = some (.int 3) ∧
    getP (buildMeteringPayload resultIntDurSecs none 0) "durationSeconds"
        = some (.float 5) ∧
    (5 : ℚ) ≠ 3 := by decide

/-- C4, amended: the numeric key `durationSeconds` is never omitted; it
equals the metadata value under key `duration` when that value is an `int`
or a `float64`, else the metadata value under key `durationSeconds` when
that value is a `float64`, and the fixed fallback `5.0` otherwise — in
particular an `int`-typed `durationSeconds` entry still yields `5.0`. -/

theorem C4_billing_duration (result : VideoGenerationResult)
    (metadata : Option UsageMetadata) (now : Int) :
    (∃ q : ℚ, getP (buildMeteringPayload result metadata now)
        "durationSeconds" = some (.float q)) ∧
    (result.Metadata = none →
      getP (buildMeteringPayload result metadata now) "durationSeconds"
        = some (.float 5)) ∧
    (∀ m n, result.Metadata = some m → lookupGo m "duration" = some (.int n) →
      getP (buildMeteringPayload result metadata now) "durationSeconds"
        = some (.float (n : ℚ))) ∧
    (∀ m q, result.Metadata = some m →
      lookupGo m "duration" = some (.float q) →
      getP (buildMeteringPayload result metadata now) "durationSeconds"
        = some (.float q)) ∧
    (∀ m q, result.Metadata = some m → lookupGo m "duration" = none →
      lookupGo m "durationSeconds" = some (.float q) →
      getP (buildMeteringPayload result metadata now) "durationSeconds"
        = some (.float q)) ∧
    (∀ m n, result.Metadata = some m → lookupGo m "duration" = none →
      lookupGo m "durationSeconds" = some (.int n) →
      getP (buildMeteringPayload result metadata now) "durationSeconds"
        = some (.float 5)) := by
  have base := getP_buildMeteringPayload_durationSeconds result metadata now
  refine ⟨⟨_, base⟩, ?_, ?_, ?_, ?_, ?_⟩
  · intro hm; rw [base, hm]; rfl
  · intro m n hm hd; rw [base, hm]
    simp [extractVideoDuration, hd]
  · intro m q hm hd; rw [base, hm]
    simp [extractVideoDuration, hd]
  · intro m q hm hd hds; rw [base, hm]
    simp [extractVideoDuration, hd, hds]
  · intro m n hm hd hds; rw [base, hm]
    simp [extractVideoDuration, hd, hds]

/-- C4, amended, witness at concrete inputs. -/

theorem C4_billing_duration_witness :
    (resultIntDur.Metadata = some [("duration", MVal.int 7)] ∧
      lookupGo [("duration", MVal.int 7)] "duration" = some (.int 7) ∧
      getP (buildMeteringPayload resultIntDur none 0) "durationSeconds"
        = some (.float 7)) ∧
    (resultSucceededWithError.Metadata = none ∧
      getP (buildMeteringPayload resultSucceededWithError none 0)
        "durationSeconds" = some (.float 5)) :=
  ⟨⟨by decide, by decide,
      (C4_billing_duration resultIntDur none 0).2.2.1
        [("duration", MVal.int 7)] 7 (by decide) (by decide)⟩,
    ⟨by decide, (C4_billing_duration resultSucceededWithError none 0).2.1
      (by decide)⟩⟩

/-- C6, counterexample: a result with terminal status SUCCEEDED but a
non-nil `Error` yields `stopReason = "ERROR"`, not the `"END"` required if
`stopReason` were determined solely by the terminal status. -/

theorem C6_counterexample :
    resultSucceededWithError.Status = TaskStatusSucceeded ∧
    getP (buildMeteringPayload resultSucceededWithError none 0) "stopReason"
      = some (.str "ERROR") := by decide

/-- C6, amended: when `result.Error` is nil, `stopReason` is determined by
the terminal status (SUCCEEDED to END, FAILED to ERROR, CANCELED to
CANCELLED); a non-nil `result.Error` forces `stopReason` to ERROR
regardless of the status. -/

theorem C6_stop_reason (result : VideoGenerationResult)
    (metadata : Option UsageMetadata) (now : Int) :
    (result.Error = none →
      (result.Status = TaskStatusSucceeded →
        getP (buildMeteringPayload result metadata now) "stopReason"
          = some (.str "END")) ∧
      (result.Status = TaskStatusFailed →
        getP (buildMeteringPayload result metadata now) "stopReason"
          = some (.str "ERROR")) ∧
      (result.Status = TaskStatusCanceled →
        getP (buildMeteringPayload result metadata now) "stopReason"
          = some (.str "CANCELLED"))) ∧
    (∀ e, result.Error = some e →
      getP (buildMeteringPayload result metadata now) "stopReason"
        = some (.str "ERROR")) := by
  have base := getP_buildMeteringPayload_stopReason result metadata now
  constructor
  · intro he
    simp only [he, Option.isSome_none, Bool.false_eq_true, if_false] at base
    refine ⟨fun hs => ?_, fun hs => ?_, fun hs => ?_⟩ <;>
      rw [base, hs] <;> decide
  · intro e he
    simp only [he, Option.isSome_some, if_true] at base
    exact base

/-- C6, amended, witness at concrete inputs. -/

theorem C6_stop_reason_witness :
    (resultOrgMeta.Error = none ∧
      resultOrgMeta.Status = TaskStatusSucceeded ∧
      getP (buildMeteringPayload resultOrgMeta none 0) "stopReason"
        = some (.str "END")) ∧
    (resultSucceededWithError.Error = some "partial failure" ∧
      getP (buildMeteringPayload resultSucceededWithError none 0)
        "stopReason" = some (.str "ERROR")) :=
  ⟨⟨by decide, by decide,
      ((C6_stop_reason resultOrgMeta none 0).1 (by decide)).1 (by decide)⟩,
    ⟨by decide, (C6_stop_reason resultSucceededWithError none 0).2
      "partial failure" (by decide)⟩⟩

theorem sendWithRetryGo_attempts_le (cfg : Config)
    (outcomes : Nat → HTTPOutcome) :
    ∀ r a b l, (sendWithRetryGo cfg outcomes a r b l).attempts ≤ a + r := by
  intro r
  induction r with
  | zero => intro a b l; simp [sendWithRetryGo]
  | succ r ih =>
      intro a b l
      cases hsend : sendMeteringRequest cfg (outcomes a) with
      | none => simp [sendWithRetryGo, hsend]
      | some e =>
          cases hv : IsValidationError e with
          | true => simp [sendWithRetryGo, hsend, hv]
          | false =>
              simp only [sendWithRetryGo, hsend, hv, Bool.false_eq_true,
                if_false]
              have := ih (a + 1) (if a > 0 then b * 2 else b) (some e)
              omega

/-- C5: `sendWithRetry` makes at most three delivery attempts; an attempt
answered by a validation (4xx) error aborts at once with that error after
that single attempt; the response sequence 500, 500, 200 gives exactly
three attempts, overall success, and the 100 ms / 200 ms backoff sleeps;
and three retryable failures exhaust the budget, yielding the metering
error wrapping the last failure. -/

theorem C5_delivery_retry (cfg : Config) (outcomes : Nat → HTTPOutcome) :
    (sendWithRetry cfg outcomes).attempts ≤ 3 ∧
    (∀ e, sendMeteringRequest cfg (outcomes 0) = some e →
      IsValidationError e = true →
      (sendWithRetry cfg outcomes).result = .aborted e ∧
      (sendWithRetry cfg outcomes).attempts = 1) ∧
    (∀ b0 b1 b2, cfg.ReveniumAPIKey ≠ "" → outcomes 0 = .resp 500 b0 →
      outcomes 1 = .resp 500 b1 → outcomes 2 = .resp 200 b2 →
      sendWithRetry cfg outcomes = ⟨.success, 3, [100, 200]⟩) ∧
    ((∀ k, k < 3 → ∃ e, sendMeteringRequest cfg (outcomes k) = some e ∧
        IsValidationError e = false) →
      (sendWithRetry cfg outcomes).result
          = .exhausted (sendMeteringRequest cfg (outcomes 2)) ∧
      (sendWithRetry cfg outcomes).attempts = 3) := by
  refine ⟨sendWithRetryGo_attempts_le cfg outcomes 3 0 100 none, ?_, ?_, ?_⟩
  · intro e he hv
    constructor <;> simp [sendWithRetry, sendWithRetryGo, he, hv]
  · intro b0 b1 b2 hkey h0 h1 h2
    have s0 : sendMeteringRequest cfg (outcomes 0)
        = some (.apiError 500 b0) := by
      rw [h0]; simp [sendMeteringRequest, hkey]
    have s1 : sendMeteringRequest cfg (outcomes 1)
        = some (.apiError 500 b1) := by
      rw [h1]; simp [sendMeteringRequest, hkey]
    have s2 : sendMeteringRequest cfg (outcomes 2) = none := by
      rw [h2]; simp [sendMeteringRequest, hkey]
    simp [sendWithRetry, sendWithRetryGo, s0, s1, s2, IsValidationError]
  · intro hfail
    obtain ⟨e0, he0, hv0⟩ := hfail 0 (by omega)
    obtain ⟨e1, he1, hv1⟩ := hfail 1 (by omega)
    obtain ⟨e2, he2, hv2⟩ := hfail 2 (by omega)
    constructor <;>
      simp [sendWithRetry, sendWithRetryGo, he0, hv0, he1, hv1, he2, hv2]

/-- C5, witness at concrete inputs. -/

theorem C5_delivery_retry_witness :
    (sendWithRetry cfgOk outcomes550).attempts ≤ 3 ∧
    sendWithRetry cfgOk outcomes550 = ⟨.success, 3, [100, 200]⟩ ∧
    (sendWithRetry cfgOk outcomes400).result
        = .aborted (.validation 400 "bad payload") ∧
    (sendWithRetry cfgOk outcomes400).attempts = 1 ∧
    (sendWithRetry cfgOk outcomesNet).result
        = .exhausted (some (.network "connection refused")) :=
  ⟨(C5_delivery_retry cfgOk outcomes550).1,
    (C5_delivery_retry cfgOk outcomes550).2.2.1 "oops-a" "oops-b" "accepted"
      (by decide) rfl rfl rfl,
    ((C5_delivery_retry cfgOk outcomes400).2.1 (.validation 400 "bad payload")
      (by decide) (by decide)).1,
    ((C5_delivery_retry cfgOk outcomes400).2.1 (.validation 400 "bad payload")
      (by decide) (by decide)).2,
    (((C5_delivery_retry cfgOk outcomesNet).2.2.2
      (fun k _ => ⟨.network "connection refused", rfl, rfl⟩)).1).trans
      (by decide)⟩

/-- C7: with a three-attempt budget, no cancellation, instantaneous
lookups, a timeout large enough for three backoff sleeps, and a status
source that never returns a terminal status (always RUNNING, or failing
transiently — either way each lookup consumes one attempt), the poller
performs exactly three lookups and then fails with the max-attempts
TaskError, never performing a fourth. -/

theorem C7_attempt_budget (env : PollEnv) (cfg : PollingConfig)
    (hMA : cfg.MaxAttempts = 3)
    (hc : ∀ k, env.cancelled k = false)
    (ht : ∀ k, env.lookupTime k = 0)
    (hl : ∀ k, nonTerminalLookup env k)
    (hT : 3 * max cfg.InitialInterval cfg.MaxInterval ≤ cfg.Timeout) :
    (WaitForTaskCompletion env (some cfg)).outcome = .maxAttemptsErr ∧
    (WaitForTaskCompletion env (some cfg)).lookups = 3 := by
  have key := waitLoop_nonterminal env cfg
    (max cfg.InitialInterval cfg.MaxInterval) hc ht hl
    (fun j _ => growInterval_le cfg j)
    (cfg.MaxAttempts + 1) 0 0 cfg.InitialInterval rfl (by omega)
    (le_max_left _ _) (by simpa [hMA] using hT)
  exact ⟨by simpa [WaitForTaskCompletion] using key.1,
    by simpa [WaitForTaskCompletion, hMA] using key.2⟩

/-- C7, witness: the default-shaped config cut to three attempts against
an always-RUNNING status source. -/

theorem C7_attempt_budget_witness :
    cfgThreeAttempts.MaxAttempts = 3 ∧
    (WaitForTaskCompletion envRunning (some cfgThreeAttempts)).outcome
        = .maxAttemptsErr ∧
    (WaitForTaskCompletion envRunning (some cfgThreeAttempts)).lookups = 3 :=
  have h := C7_attempt_budget envRunning cfgThreeAttempts rfl (fun _ => rfl)
    (fun _ => rfl)
    (fun _ => Or.inr ⟨sampleRunningStatus, rfl, by decide, by decide,
      by decide⟩)
    (by decide)
  ⟨rfl, h.1, h.2⟩

/-- C9: whenever `ImageToVideo` or `VideoToVideo` spawns a dispatch, the
dispatched payload's `durationSeconds` equals the fallback `5.0`
regardless of the request's `Duration`: the orchestrator stores the
requested duration only under `requestedDuration`, which the billing
extraction never reads. -/

theorem C9_dispatch_duration_fallback
    (createOutcome : Except RErr TaskResponse) (env : PollEnv)
    (reqA : ImageToVideoRequest) (reqB : VideoToVideoRequest)
    (metadata : Option UsageMetadata) (wallClock : Nat) (now : Int) :
    (∀ p, (ImageToVideo createOutcome env reqA metadata wallClock
        now).dispatched = some p →
      getP p "durationSeconds" = some (.float 5)) ∧
    (∀ p, (VideoToVideo createOutcome env reqB metadata wallClock
        now).dispatched = some p →
      getP p "durationSeconds" = some (.float 5)) := by
  constructor
  · intro p hp
    cases createOutcome with
    | error e => simp [ImageToVideo] at hp
    | ok task =>
        simp only [ImageToVideo] at hp
        split at hp
        · simp only [Option.some_inj] at hp
          rw [← hp, getP_buildMeteringPayload_durationSeconds]
          simp [extractVideoDuration, lookupGo]
        · simp at hp
  · intro p hp
    cases createOutcome with
    | error e => simp [VideoToVideo] at hp
    | ok task =>
        simp only [VideoToVideo] at hp
        split at hp
        · simp only [Option.some_inj] at hp
          rw [← hp, getP_buildMeteringPayload_durationSeconds]
          simp [extractVideoDuration, lookupGo]
        · simp at hp

/-- C9, witness: a concrete successful run with requested duration 10
dispatches a payload whose `durationSeconds` is `5.0`. -/

theorem C9_dispatch_duration_fallback_witness :
    sampleI2VReq.Duration = 10 ∧
    (ImageToVideo (.ok sampleTask) envSucceeded sampleI2VReq none
        0 0).dispatched = some (buildMeteringPayload i2vRunResult none 0) ∧
    getP (buildMeteringPayload i2vRunResult none 0) "durationSeconds"
        = some (.float 5) :=
  ⟨by decide, rfl,
    (C9_dispatch_duration_fallback (.ok sampleTask) envSucceeded sampleI2VReq
      sampleV2VReq none 0 0).1 (buildMeteringPayload i2vRunResult none 0)
      rfl⟩

/-- C10: `Initialize` is idempotent — once one call has returned nil,
every later call, with any options and any environment, returns nil and
leaves the global state (client, configuration and flag) unchanged. -/

theorem C10_initialize_idempotent (st0 : GlobalState)
    (opts0 : List (Config → Config)) (env0 : String → String)
    (opts1 : List (Config → Config)) (env1 : String → String)
    (h : (InitializeMiddleware st0 opts0 env0).2 = none) :
    InitializeMiddleware (InitializeMiddleware st0 opts0 env0).1 opts1 env1
      = ((InitializeMiddleware st0 opts0 env0).1, none) := by
  by_cases hinit : st0.initialized
  · simp [InitializeMiddleware, hinit]
  · cases hv : Validate (LoadFromEnv
        (opts0.foldl (fun c opt => opt c) {}) env0) with
    | some e => simp [InitializeMiddleware, hinit, hv] at h
    | none => simp [InitializeMiddleware, hinit, hv]

/-- C10, witness: a fresh state, a successful environment-driven first
call, then a second call with different options and an empty
environment. -/

theorem C10_initialize_idempotent_witness :
    (InitializeMiddleware ⟨none, false⟩ [] envInit).2 = none ∧
    InitializeMiddleware (InitializeMiddleware ⟨none, false⟩ [] envInit).1
        [WithRunwayAPIKey "other"] (fun _ => "")
      = ((InitializeMiddleware ⟨none, false⟩ [] envInit).1, none) :=
  ⟨by decide, C10_initialize_idempotent ⟨none, false⟩ [] envInit
    [WithRunwayAPIKey "other"] (fun _ => "") (by decide)⟩

end Runway
